import Mathlib

/-!
Shallow embedding of the two-phase extraction pipeline of the
gundert-portal-scraper repository: the raw-content cache (core/cache.py),
the download phase (core/download_phase.py), the processing phase
(core/processing_phase.py) and the orchestrator (core/two_phase_scraper.py).

File-system and browser effects are made explicit: the cache is a pure
state value, the browser and the HTML parsers are oracle parameters, and
every browser navigation or cache write appears in an explicit effect
trace.  The md5 content hash is an abstract parameter `hash`.
-/

namespace GundertModel

/-- Association-list lookup, modelling a Python dict read. -/
def alookup {κ α : Type} [DecidableEq κ] : List (κ × α) → κ → Option α
  | [], _ => none
  | (k, v) :: rest, k0 => if k0 = k then some v else alookup rest k0

/-- Association-list insert-or-replace, modelling a Python dict write:
an existing key is replaced in place, a new key is appended at the end
(Python dicts preserve insertion order). -/
def aupsert {κ α : Type} [DecidableEq κ] : List (κ × α) → κ → α → List (κ × α)
  | [], k, v => [(k, v)]
  | (k0, v0) :: rest, k, v =>
      if k = k0 then (k, v) :: rest else (k0, v0) :: aupsert rest k v

/-- Decimal digit character, as produced by Python str(int). -/
def digitChr (d : Nat) : Char := Char.ofNat (48 + d)

/-- Fuel-driven decimal digit expansion (fuel keeps the recursion structural). -/
def natCharsAux : Nat → Nat → List Char
  | 0, _ => []
  | fuel + 1, n =>
      if n < 10 then [digitChr n]
      else natCharsAux fuel (n / 10) ++ [digitChr (n % 10)]

/-- Decimal digit characters of a natural number. -/
def natChars (n : Nat) : List Char := natCharsAux (n + 1) n

/-- Decimal string of a natural number, modelling Python str(int). -/
def numToStr (n : Nat) : String := ⟨natChars n⟩

/-- Substring test on character lists. -/
def charsContain (needle : List Char) : List Char → Bool
  | [] => needle.isEmpty
  | c :: rest => needle.isPrefixOf (c :: rest) || charsContain needle rest

/-- Substring test on strings, modelling the Python `in` operator. -/
def strContains (hay needle : String) : Bool := charsContain needle.data hay.data

/-- Insertion into a list sorted by a numeric key. -/
def insertByKey {α : Type} (key : α → Nat) (a : α) : List α → List α
  | [] => [a]
  | b :: l => if key a ≤ key b then a :: b :: l else b :: insertByKey key a l

/-- Sorting by a numeric key.  Python list.sort is a stable comparison
sort; on the lists this model sorts, elements with equal keys are equal,
so any comparison sort computes the same result. -/
def sortByKey {α : Type} (key : α → Nat) : List α → List α
  | [] => []
  | a :: l => insertByKey key a (sortByKey key l)

/-! ## Content cache (core/cache.py) -/

/-- CacheMetadata (cache.py lines 14-56): one record per book, persisted
as metadata.json.  Timestamps and durations are left out of the model:
no claim depends on wall-clock values. -/
structure CacheMeta where
  bookId : String
  portalType : String
  url : String
  pageCount : Nat
  pagesCached : List Nat
  checksums : List (String × String)
deriving DecidableEq, Repr

/-- Fresh metadata as built by the CacheMetadata constructor. -/
def freshMeta (bookId portalType url : String) : CacheMeta :=
  { bookId := bookId, portalType := portalType, url := url,
    pageCount := 0, pagesCached := [], checksums := [] }

/-- The on-disk cache: blobs keyed by (bookId, page, tab) - the file name
page_NNNN_tab.html is determined injectively by (page, tab) - and one
metadata record per book directory. -/
structure CacheState where
  files : List ((String × Nat × String) × String)
  metas : List (String × CacheMeta)
deriving DecidableEq, Repr

/-- An empty cache directory. -/
def emptyCache : CacheState := { files := [], metas := [] }

/-- Checksum key written by save (cache.py line 280): "page_tab". -/
def checksumKey (page : Nat) (tab : String) : String :=
  numToStr page ++ "_" ++ tab

/-- RawContentCache.is_cached (cache.py lines 78-82): metadata exists. -/
def isCached (st : CacheState) (bookId : String) : Bool :=
  (alookup st.metas bookId).isSome

/-- Metadata update performed by RawContentCache._update_metadata
(cache.py lines 260-288) on one in-memory record. -/
def updateMeta (hash : String → String) (m : CacheMeta) (page : Nat)
    (tab : String) (content : String) : CacheMeta :=
  { m with
    pagesCached :=
      if page ∈ m.pagesCached then m.pagesCached
      else sortByKey (fun n => n) (m.pagesCached ++ [page]),
    checksums := aupsert m.checksums (checksumKey page tab) (hash content),
    pageCount := max m.pageCount page }

/-- RawContentCache._update_metadata on the cache state: loads the
existing metadata record or creates a fresh one, updates it, writes it
back. -/
def updMetadata (hash : String → String) (st : CacheState) (bookId : String)
    (page : Nat) (tab : String) (content : String) : CacheState :=
  let m := match alookup st.metas bookId with
    | some m => m
    | none => freshMeta bookId "unknown" "unknown"
  { st with metas := aupsert st.metas bookId (updateMeta hash m page tab content) }

/-- RawContentCache.save_page_content (cache.py lines 108-143): writes the
blob, computes the checksum and updates the metadata.  The model covers the
successful run (return value True); the claims under verification all
condition on a successful save. -/
def savePageContent (hash : String → String) (st : CacheState) (bookId : String)
    (page : Nat) (content : String) (tab : String) : CacheState :=
  let st1 := { st with files := aupsert st.files (bookId, page, tab) content }
  updMetadata hash st1 bookId page tab content

/-- RawContentCache.load_page_content (cache.py lines 145-161). -/
def loadPageContent (st : CacheState) (bookId : String) (page : Nat)
    (tab : String) : Option String :=
  alookup st.files (bookId, page, tab)

/-- RawContentCache.get_cached_pages (cache.py lines 163-173). -/
def getCachedPages (st : CacheState) (bookId : String) : List Nat :=
  match alookup st.metas bookId with
  | some m => m.pagesCached
  | none => []

/-- Per-page check of RawContentCache.validate_cache (cache.py lines
202-218): the transcript blob must exist; when the key str(page) is
present in the checksum map, the recomputed hash must equal it.  Note
the lookup key is numToStr page, not the "page_tab" key written by
save. -/
def validatePage (hash : String → String) (st : CacheState) (bookId : String)
    (cs : List (String × String)) (page : Nat) : List String :=
  match alookup st.files (bookId, page, "transcript") with
  | none => ["Page " ++ numToStr page ++ " file missing"]
  | some content =>
    match alookup cs (numToStr page) with
    | none => []
    | some expected =>
      if hash content = expected then []
      else ["Page " ++ numToStr page ++ " checksum mismatch"]

/-- RawContentCache.validate_cache (cache.py lines 175-224). -/
def validateCache (hash : String → String) (st : CacheState)
    (bookId : String) : Bool × List String :=
  match alookup st.metas bookId with
  | none => (false, ["Cache not found"])
  | some m =>
    let issues :=
      m.pagesCached.foldl (fun acc p => acc ++ validatePage hash st bookId m.checksums p) []
    (issues.isEmpty, issues)

/-- RawContentCache.initialize_metadata (cache.py lines 290-307): writes a
fresh metadata record, replacing any existing one. -/
def initMetadata (st : CacheState) (bookId portalType url : String) : CacheState :=
  { st with metas := aupsert st.metas bookId (freshMeta bookId portalType url) }

/-! ## Download phase (core/download_phase.py) -/

/-- Observable side effects other than pure cache reads: browser-session
work and cache writes. -/
inductive Effect where
  | openSession (url : String)
  | navPage (page : Nat) (tab : String)
  | navUrl (url : String)
  | cacheWrite
deriving DecidableEq, Repr

/-- DownloadProgress (download_phase.py lines 19-34). -/
structure Progress where
  totalPages : Nat
  completedPages : Nat
  currentPage : Nat
  failedPages : List Nat
deriving DecidableEq, Repr

/-- DownloadProgress.__init__. -/
def Progress.init (total : Nat) : Progress :=
  { totalPages := total, completedPages := 0, currentPage := 0, failedPages := [] }

/-- DownloadProgress.update (download_phase.py lines 29-34). -/
def Progress.update (pr : Progress) (page : Nat) (success : Bool) : Progress :=
  { pr with
    completedPages := pr.completedPages + 1,
    currentPage := page,
    failedPages := if success then pr.failedPages else pr.failedPages ++ [page] }

/-- Per-page download result dict (download_phase.py lines 62-68). -/
structure PageDlResult where
  pageNumber : Nat
  success : Bool
  tabsDownloaded : List String
  errors : List String
deriving DecidableEq, Repr

/-- Environment oracle for the download phase: the browsing collaborator
and the HTML page-index parser.  fetchOk and fetchHtml give the outcome
of navigate/wait/get_source per (page, tab); parseStruct gives the page
numbers found by _parse_spa_page_structure in a document. -/
structure DownloadEnv where
  hash : String → String
  pageCountDetect : Nat
  fetchOk : Nat → String → Bool
  fetchHtml : Nat → String → String
  spaFetchOk : Bool
  spaDoc : String
  parseStruct : String → List Nat

/-- DownloadWorker.download_page (download_phase.py lines 60-117): tries
the transcript tab then the view tab, saving whichever fetch succeeds;
the page succeeds iff at least one tab was downloaded.  Cache saves
succeed in the model. -/
def downloadPage (env : DownloadEnv) (st : CacheState) (bookId : String)
    (page : Nat) : PageDlResult × CacheState × List Effect :=
  let tOk := env.fetchOk page "transcript"
  let st1 := if tOk then
      savePageContent env.hash st bookId page (env.fetchHtml page "transcript") "transcript"
    else st
  let vOk := env.fetchOk page "view"
  let st2 := if vOk then
      savePageContent env.hash st1 bookId page (env.fetchHtml page "view") "view"
    else st1
  let tabs := (if tOk then ["transcript"] else []) ++ (if vOk then ["view"] else [])
  let effs := [Effect.navPage page "transcript"]
      ++ (if tOk then [Effect.cacheWrite] else [])
      ++ [Effect.navPage page "view"]
      ++ (if vOk then [Effect.cacheWrite] else [])
  ({ pageNumber := page, success := !tabs.isEmpty, tabsDownloaded := tabs,
     errors := (if tOk then [] else ["Transcript download failed"])
        ++ (if vOk then [] else ["View download failed"]) }, st2, effs)

/-- Maximum of a list of naturals; Python max(list) on the nonempty lists
this model applies it to. -/
def listMax (l : List Nat) : Nat := l.foldr max 0

/-- Result of DownloadWorker.download_complete_book. -/
structure SpaResult where
  pageResults : List PageDlResult
  failedPages : List Nat
deriving DecidableEq, Repr

/-- Save loop of download_complete_book (download_phase.py lines 148-185):
pages beyond the parsed maximum fail, all others get the complete document
saved under both tabs. -/
def spaSavePages (hash : String → String) (doc : String) (maxAvailable : Nat)
    (bookId : String) :
    List Nat → CacheState → List PageDlResult × List Nat × CacheState × List Effect
  | [], st => ([], [], st, [])
  | p :: rest, st =>
    if p > maxAvailable then
      let (rs, fs, st2, effs) := spaSavePages hash doc maxAvailable bookId rest st
      ({ pageNumber := p, success := false, tabsDownloaded := [],
         errors := ["Page exceeds available pages"] } :: rs, p :: fs, st2, effs)
    else
      let st1 := savePageContent hash st bookId p doc "transcript"
      let st2 := savePageContent hash st1 bookId p doc "view"
      let (rs, fs, st3, effs) := spaSavePages hash doc maxAvailable bookId rest st2
      ({ pageNumber := p, success := true, tabsDownloaded := ["transcript", "view"],
         errors := [] } :: rs, fs, st3,
       Effect.cacheWrite :: Effect.cacheWrite :: effs)

/-- DownloadWorker.download_complete_book (download_phase.py lines
119-216): one navigation fetches the complete document; the parsed page
index bounds which requested pages can be cached.  On a fetch failure all
requested pages fail (lines 198-216). -/
def downloadCompleteBook (env : DownloadEnv) (st : CacheState) (bookId : String)
    (requested : List Nat) : SpaResult × CacheState × List Effect :=
  if env.spaFetchOk then
    let struct := env.parseStruct env.spaDoc
    let maxAvailable := if struct.isEmpty then listMax requested else listMax struct
    let out := spaSavePages env.hash env.spaDoc maxAvailable bookId requested st
    ({ pageResults := out.fst, failedPages := out.snd.fst }, out.snd.snd.fst,
     Effect.navPage 1 "view" :: out.snd.snd.snd)
  else
    ({ pageResults := requested.map (fun p =>
         { pageNumber := p, success := false, tabsDownloaded := [],
           errors := ["Complete book download failed"] }),
       failedPages := requested }, st, [Effect.navPage 1 "view"])

/-- Sequential loop of download_book (download_phase.py lines 406-412):
per page, download and update the progress record.  The failure-recording
block at lines 414-416 sits outside this loop in the source. -/
def seqDownloadLoop (env : DownloadEnv) (bookId : String) :
    List Nat → CacheState → Progress →
    List PageDlResult × CacheState × Progress × List Effect
  | [], st, pr => ([], st, pr, [])
  | p :: rest, st, pr =>
    let (r, st1, effs) := downloadPage env st bookId p
    let (rs, st2, pr2, effs2) := seqDownloadLoop env bookId rest st1 (pr.update p r.success)
    (r :: rs, st2, pr2, effs ++ effs2)

/-- Aggregate download statistics (download_phase.py lines 445-453). -/
structure DownloadStats where
  totalPages : Nat
  successfulPages : Nat
  failedPages : Nat
  failedPageNumbers : List Nat
deriving DecidableEq, Repr

/-- Return value of DownloadPhase.download_book. -/
structure DownloadResult where
  success : Bool
  fromCache : Bool
  stats : Option DownloadStats
  progress : Option Progress
deriving DecidableEq, Repr

/-- BookIdentifier, reduced to the fields download_book reads. -/
structure BookIdent where
  bookId : String
  portalType : String
  baseUrl : String
  bookUrl : String
deriving DecidableEq, Repr

/-- Python list(range(startPage, endPage + 1)). -/
def pageRange (startPage endPage : Nat) : List Nat :=
  (List.range (endPage + 1 - startPage)).map (fun i => startPage + i)

/-- Epilogue of download_book (download_phase.py lines 425-463): final
metadata write (from the fresh record created by initialize_metadata, so
its checksum map is empty) and statistics. -/
def finishDownload (ident : BookIdent) (totalPages : Nat) (pages : List Nat)
    (downloadResults : List PageDlResult) (failedP : List Nat)
    (pr : Progress) (st1 : CacheState) (effs : List Effect) :
    DownloadResult × CacheState × List Effect :=
  let finalMeta := { freshMeta ident.bookId ident.portalType ident.baseUrl with
    pageCount := totalPages,
    pagesCached := (downloadResults.filter (fun r => r.success)).map (fun r => r.pageNumber) }
  let st2 := { st1 with metas := aupsert st1.metas ident.bookId finalMeta }
  let stats : DownloadStats :=
    { totalPages := pages.length,
      successfulPages := pr.completedPages - failedP.length,
      failedPages := failedP.length,
      failedPageNumbers := failedP }
  ({ success := failedP.isEmpty, fromCache := false, stats := some stats,
     progress := some pr }, st2,
   [Effect.cacheWrite, Effect.openSession ident.bookUrl] ++ effs ++ [Effect.cacheWrite])

/-- DownloadPhase.download_book (download_phase.py lines 323-467).  When
the book is cached, valid and not forced, it returns from cache with no
session opened and no cache write.  Otherwise it initialises metadata,
opens one browsing session, branches on the portal kind, and in the
sequential branch only the LAST result is inspected for the failed-pages
list (lines 414-416 are indented outside the page loop in the source). -/
def downloadBook (env : DownloadEnv) (st : CacheState) (ident : BookIdent)
    (startPage : Nat) (endPageOpt : Option Nat) (forceRedownload : Bool) :
    DownloadResult × CacheState × List Effect :=
  let cacheIs := isCached st ident.bookId
  let cacheValid := (validateCache env.hash st ident.bookId).fst
  if cacheIs && cacheValid && !forceRedownload then
    ({ success := true, fromCache := true, stats := none, progress := none }, st, [])
  else
    let st0 := initMetadata st ident.bookId ident.portalType ident.baseUrl
    let totalPages := endPageOpt.getD env.pageCountDetect
    let pages := pageRange startPage totalPages
    let pr0 := Progress.init pages.length
    if ident.portalType = "opendigi" then
      let (spa, st1, effs) := downloadCompleteBook env st0 ident.bookId pages
      let pr := pages.foldl (fun a p => a.update p (!(spa.failedPages.contains p))) pr0
      finishDownload ident totalPages pages spa.pageResults spa.failedPages pr st1 effs
    else
      let (rs, st1, pr, effs) := seqDownloadLoop env ident.bookId pages st0 pr0
      let failedP := match rs.getLast? with
        | some r => if r.success then [] else [r.pageNumber]
        | none => []
      finishDownload ident totalPages pages rs failedP pr st1 effs

/-! ## Processing phase (core/processing_phase.py) -/

/-- One extracted content line (processing_phase.py lines 247-288). -/
structure Line where
  lineNumber : Nat
  text : String
  htmlTag : String
  cssClasses : List String
  formattingPreserved : Bool
deriving DecidableEq, Repr

/-- The spa_info sub-dict attached by the SPA extraction paths. -/
structure SpaInfo where
  isSpa : Bool
  jsExecutionSuccessful : Bool
  jsExecutionFailed : Bool
  usedStaticFallback : Bool
deriving DecidableEq, Repr

/-- The transcript_info dict built by the extraction strategies. -/
structure TranscriptInfo where
  available : Bool
  lines : List Line
  lineCount : Nat
  characterCount : Nat
  extractionMethod : Option String
  error : Option String
  spaInfo : Option SpaInfo
deriving DecidableEq, Repr

/-- The image_info dict: in the SPA branch process_page stores a
transcript-shaped dict there (line 105), in the classic branch an
image-url dict, and it stays the initial empty dict when the body raises
before assigning it. -/
inductive ImageInfo where
  | spa (t : TranscriptInfo)
  | classic (imageUrl : Option String) (err : Option String)
  | empty
deriving DecidableEq, Repr

/-- The content_analysis dict (processing_phase.py lines 317-345). -/
structure ContentAnalysis where
  hasImage : Bool
  hasTranscript : Bool
  extractionSuccess : Bool
  transcriptQuality : Option String
  recommendations : List String
deriving DecidableEq, Repr

/-- The per-page result dict of ProcessingWorker.process_page
(processing_phase.py lines 77-86).  transcriptInfo and contentAnalysis
are none while they still hold the initial empty dict.  Timestamps and
processing times are wall-clock values and stay out of the model. -/
structure PageRecord where
  pageNumber : Nat
  extractionSuccess : Bool
  transcriptInfo : Option TranscriptInfo
  imageInfo : ImageInfo
  contentAnalysis : Option ContentAnalysis
  error : Option String
deriving DecidableEq, Repr

/-- Outcome of one _execute_spa_extraction attempt: JavaScript extraction
succeeded with lines, or it failed after the driver.get navigation, or it
failed before any navigation (e.g. the WebDriver could not start).  The
function catches all its exceptions internally (lines 513-526), so it
only ever reports success or failure. -/
inductive JsOutcome where
  | ok (lines : List Line)
  | failAfterNav (err : String)
  | failBeforeNav (err : String)
deriving DecidableEq, Repr

/-- Environment oracle for the processing phase.  structuralTranscript
and structuralImage stand for the BeautifulSoup extractors
_extract_transcript_data and _extract_image_data, which catch all their
exceptions and always return a result dict.  unexpected injects an
arbitrary runtime exception into the body of process_page, exercising the
catch at lines 123-126. -/
structure ProcEnv where
  seleniumAvailable : Bool
  jsResult : Nat → String → JsOutcome
  structuralTranscript : String → Nat → TranscriptInfo
  structuralImage : String → Nat → Option String × Option String
  unexpected : String → Nat → Option String

/-- The book URL hard-coded inside _execute_spa_extraction
(processing_phase.py line 451). -/
def spaHardcodedBase : String :=
  "https://opendigi.ub.uni-tuebingen.de/opendigi/GaXXXIV5a"

/-- The URL _execute_spa_extraction navigates to (line 452): the
hard-coded base plus tab kind and page-number fragment.  No book
identifier enters the construction. -/
def spaPageUrl (contentType : String) (page : Nat) : String :=
  spaHardcodedBase ++ "#tab=" ++ contentType ++ "&p=" ++ numToStr page

/-- ProcessingWorker._execute_spa_extraction (lines 417-532): without
Selenium it fails immediately; otherwise it opens a short-lived driver,
navigates to the hard-coded SPA URL and reports the oracle outcome. -/
def executeSpaExtraction (env : ProcEnv) (page : Nat) (contentType : String) :
    JsOutcome × List Effect :=
  if !env.seleniumAvailable then
    (JsOutcome.failBeforeNav "Selenium WebDriver not available", [])
  else
    match env.jsResult page contentType with
    | JsOutcome.ok lines =>
        (JsOutcome.ok lines, [Effect.navUrl (spaPageUrl contentType page)])
    | JsOutcome.failAfterNav e =>
        (JsOutcome.failAfterNav e, [Effect.navUrl (spaPageUrl contentType page)])
    | JsOutcome.failBeforeNav e => (JsOutcome.failBeforeNav e, [])

/-- The placeholder line built by _extract_spa_static_content (lines
710-716). -/
def staticFallbackLine (page : Nat) (contentType : String) : Line :=
  { lineNumber := 1,
    text := "[SPA Page " ++ numToStr page ++ "] Static analysis fallback - "
      ++ contentType ++ " content requires JavaScript execution for full extraction",
    htmlTag := "div", cssClasses := ["spa-static-fallback"],
    formattingPreserved := true }

/-- ProcessingWorker._extract_spa_static_content (lines 691-738): the
clearly-labeled static fallback record. -/
def staticFallbackInfo (page : Nat) (contentType : String) : TranscriptInfo :=
  { available := true,
    lines := [staticFallbackLine page contentType],
    lineCount := 1,
    characterCount := ("SPA Page " ++ numToStr page ++ " static fallback").length,
    extractionMethod := some "spa_static_fallback",
    error := none,
    spaInfo := some { isSpa := true, jsExecutionSuccessful := false,
                      jsExecutionFailed := true, usedStaticFallback := true } }

/-- Missing-content result of _extract_spa_page_content (line 387). -/
def noSpaContent (contentType : String) : TranscriptInfo :=
  { available := false, lines := [], lineCount := 0, characterCount := 0,
    extractionMethod := none,
    error := some ("No " ++ contentType ++ " content"), spaInfo := none }

/-- ProcessingWorker._extract_spa_page_content (lines 369-415): empty or
missing content short-circuits; a successful JavaScript execution yields
the structured record tagged spa_javascript_execution; any failure falls
back to the static placeholder (both the explicit else at line 410 and
the exception handler at lines 412-415 take this path). -/
def extractSpaPageContent (env : ProcEnv) (html : Option String) (page : Nat)
    (contentType : String) : TranscriptInfo × List Effect :=
  match html with
  | none => (noSpaContent contentType, [])
  | some h =>
    if h = "" then (noSpaContent contentType, [])
    else
      let (res, effs) := executeSpaExtraction env page contentType
      match res with
      | JsOutcome.ok lines =>
          ({ available := true, lines := lines, lineCount := lines.length,
             characterCount := (lines.map (fun l => l.text.length)).foldl (· + ·) 0,
             extractionMethod := some "spa_javascript_execution",
             error := none,
             spaInfo := some { isSpa := true, jsExecutionSuccessful := true,
                               jsExecutionFailed := false, usedStaticFallback := false } },
           effs)
      | JsOutcome.failAfterNav _ => (staticFallbackInfo page contentType, effs)
      | JsOutcome.failBeforeNav _ => (staticFallbackInfo page contentType, effs)

/-- The SPA marker strings of _detect_spa_website (lines 360-365). -/
def spaIndicators : List String :=
  ["data-pages=", "var viewer = new Viewer", "new HashTabs()",
   "opendigi.ub.uni-tuebingen.de"]

/-- ProcessingWorker._detect_spa_website (lines 347-367). -/
def detectSpa (html : String) : Bool :=
  if html = "" then false
  else spaIndicators.any (fun ind => strContains html ind)

/-- Python `a or b` over optional strings: None and the empty string are
falsy. -/
def orElseStr (a : Option String) (b : String) : String :=
  match a with
  | some s => if s = "" then b else s
  | none => b

/-- Classic-branch transcript result when no transcript is cached
(line 113). -/
def noCachedTranscript : TranscriptInfo :=
  { available := false, lines := [], lineCount := 0, characterCount := 0,
    extractionMethod := none,
    error := some "No cached transcript content", spaInfo := none }

/-- Truthiness of image_info.get, as _analyze_page_content reads it: the
SPA-shaped dict has no image_url key, and None or the empty string are
falsy. -/
def imageTruthy : ImageInfo → Bool
  | ImageInfo.classic (some u) _ => u ≠ ""
  | _ => false

/-- ProcessingWorker._analyze_page_content (lines 317-345). -/
def analyzeContent (tInfo : Option TranscriptInfo) (iInfo : ImageInfo)
    (success : Bool) : ContentAnalysis :=
  let hasT := match tInfo with
    | some t => t.available
    | none => false
  let base : ContentAnalysis :=
    { hasImage := imageTruthy iInfo, hasTranscript := hasT,
      extractionSuccess := success, transcriptQuality := none,
      recommendations := [] }
  match tInfo with
  | some t =>
    if t.available then
      if t.lineCount > 10 && t.characterCount > 500 then
        { base with
          transcriptQuality := some "high",
          recommendations := ["Rich transcript content available"] }
      else if t.lineCount > 5 then
        { base with
          transcriptQuality := some "medium",
          recommendations := ["Moderate transcript content"] }
      else
        { base with
          transcriptQuality := some "low",
          recommendations := ["Limited transcript content"] }
    else base
  | none => base

/-- ProcessingWorker.process_page (lines 75-131): loads the cached blobs,
dispatches on the SPA detection, analyses the content, and converts any
exception raised inside the try-block into a failed record (lines
123-126) instead of raising. -/
def processPage (env : ProcEnv) (st : CacheState) (bookId : String)
    (page : Nat) : PageRecord × List Effect :=
  match env.unexpected bookId page with
  | some e =>
      ({ pageNumber := page, extractionSuccess := false, transcriptInfo := none,
         imageInfo := ImageInfo.empty, contentAnalysis := none,
         error := some e }, [])
  | none =>
    let tHtml := loadPageContent st bookId page "transcript"
    let vHtml := loadPageContent st bookId page "view"
    let isSpa := detectSpa (orElseStr tHtml (orElseStr vHtml ""))
    let tie : TranscriptInfo × ImageInfo × List Effect :=
      if isSpa then
        let te := extractSpaPageContent env tHtml page "transcript"
        let ve := extractSpaPageContent env vHtml page "view"
        (te.fst, ImageInfo.spa ve.fst, te.snd ++ ve.snd)
      else
        let t := match tHtml with
          | some h => if h = "" then noCachedTranscript
                      else env.structuralTranscript h page
          | none => noCachedTranscript
        let i := match vHtml with
          | some h =>
              if h = "" then ImageInfo.classic none (some "No cached view content")
              else ImageInfo.classic (env.structuralImage h page).fst (env.structuralImage h page).snd
          | none => ImageInfo.classic none (some "No cached view content")
        (t, i, ([] : List Effect))
    ({ pageNumber := page, extractionSuccess := true,
       transcriptInfo := some tie.fst, imageInfo := tie.snd.fst,
       contentAnalysis := some (analyzeContent (some tie.fst) tie.snd.fst true),
       error := none }, tie.snd.snd)

/-- A typed extraction error: ExtractionError(operation, details)
(exceptions.py lines 61-70). -/
structure ExtErr where
  operation : String
  details : String
deriving DecidableEq, Repr

/-- Aggregate processing statistics (processing_phase.py lines 836-845).
Wall-clock-derived entries (durations, throughput, success_rate) are left
out of the model. -/
structure ProcStats where
  pagesProcessed : Nat
  pagesWithTranscripts : Nat
  pagesWithImages : Nat
  totalLinesExtracted : Nat
  errors : List Nat
deriving DecidableEq, Repr

/-- The book_data payload returned by process_cached_book (lines
847-858), restricted to its deterministic fields. -/
structure BookData where
  bookId : String
  maxWorkers : Nat
  pages : List PageRecord
  statistics : ProcStats
deriving DecidableEq, Repr

/-- Reading transcript_info.get(available) off a record. -/
def recHasTranscript (r : PageRecord) : Bool :=
  match r.transcriptInfo with
  | some t => t.available
  | none => false

/-- Reading transcript_info.get(line_count, 0) off a record. -/
def recLineCount (r : PageRecord) : Nat :=
  match r.transcriptInfo with
  | some t => t.lineCount
  | none => 0

/-- ProcessingPhase.process_cached_book (lines 759-861).  The worker pool
is modelled by the completion order: the submitted pages come back as an
arbitrary permutation of the cached-pages list (width 1 returns them in
submission order; any width N some permutation).  process_page never
raises, so the defensive future-exception handler at lines 820-823 is
unreachable; validate_cache at lines 775-777 is logging-only and does not
influence the result. -/
def processCachedBook (env : ProcEnv) (st : CacheState) (bookId : String)
    (order : List Nat) (maxWorkers : Nat) :
    Except ExtErr BookData × List Effect :=
  if !isCached st bookId then
    (Except.error ⟨"processing phase", "No cached content found for book " ++ bookId⟩, [])
  else
    let cachedPages := getCachedPages st bookId
    if cachedPages.isEmpty then
      (Except.error ⟨"processing phase", "No cached pages found for book " ++ bookId⟩, [])
    else
      let outs := order.map (fun p => processPage env st bookId p)
      let records := outs.map Prod.fst
      let effs := (outs.map Prod.snd).foldr (fun a b => a ++ b) []
      let failed := (records.filter (fun r => !r.extractionSuccess)).map (fun r => r.pageNumber)
      let sorted := sortByKey (fun r => r.pageNumber) records
      let stats : ProcStats :=
        { pagesProcessed := sorted.length,
          pagesWithTranscripts := (sorted.filter recHasTranscript).length,
          pagesWithImages := (sorted.filter (fun r => imageTruthy r.imageInfo)).length,
          totalLinesExtracted := (sorted.map recLineCount).foldl (· + ·) 0,
          errors := failed }
      (Except.ok { bookId := bookId, maxWorkers := maxWorkers,
                   pages := sorted, statistics := stats }, effs)

/-! ## Orchestrator (core/two_phase_scraper.py) -/

/-- Python str(ExtractionError(operation, details)). -/
def errStr (e : ExtErr) : String :=
  "Extraction failed during " ++ e.operation
    ++ (if e.details = "" then "" else ": " ++ e.details)

/-- Environment for a whole extract_book run. -/
structure OrchestratorEnv where
  dl : DownloadEnv
  proc : ProcEnv
  order : List Nat
  maxWorkers : Nat

/-- TwoPhaseContentScraper.extract_book (two_phase_scraper.py lines
54-134): the download phase runs unless skipped; a download failure not
served from cache aborts; the processing phase runs afterwards, and its
typed error is re-wrapped as ExtractionError with the phase name
(line 134).  The Bool paired with the book data is the used_cache flag. -/
def extractBook (env : OrchestratorEnv) (st : CacheState) (ident : BookIdent)
    (startPage : Nat) (endPageOpt : Option Nat)
    (forceRedownload skipDownload : Bool) :
    Except ExtErr (BookData × Bool) × CacheState × List Effect :=
  if skipDownload then
    match processCachedBook env.proc st ident.bookId env.order env.maxWorkers with
    | (Except.error e, effs) =>
        (Except.error ⟨"processing phase", errStr e⟩, st, effs)
    | (Except.ok d, effs) => (Except.ok (d, false), st, effs)
  else
    let (dres, st1, dEffs) := downloadBook env.dl st ident startPage endPageOpt forceRedownload
    if !dres.success && !dres.fromCache then
      (Except.error ⟨"download phase", "Download failed"⟩, st1, dEffs)
    else
      match processCachedBook env.proc st1 ident.bookId env.order env.maxWorkers with
      | (Except.error e, effs) =>
          (Except.error ⟨"processing phase", errStr e⟩, st1, dEffs ++ effs)
      | (Except.ok d, effs) => (Except.ok (d, dres.fromCache), st1, dEffs ++ effs)

/-! ## Derived definitions used by the verification -/

/-- The metadata record _update_metadata operates on for a book: the
stored one, or the fresh fallback it builds when none is stored yet. -/
def metaOf (st : CacheState) (bookId : String) : CacheMeta :=
  (alookup st.metas bookId).getD (freshMeta bookId "unknown" "unknown")

/-- Structural invariant of a metadata record: the cached-pages list is
strictly increasing and the page count is its maximum. -/
def InvMeta (m : CacheMeta) : Prop :=
  List.Pairwise (fun a b => a < b) m.pagesCached ∧ m.pageCount = listMax m.pagesCached

/-- One save call, as a record for sequencing: (page, tab, content). -/
def applySaves (hash : String → String) (bookId : String) :
    List (Nat × String × String) → CacheState → CacheState
  | [], st => st
  | s :: rest, st =>
      applySaves hash bookId rest (savePageContent hash st bookId s.1 s.2.2 s.2.1)

/-- Invariant of a book cache populated exclusively through
transcript-kind saves: every cached page has its transcript blob on disk,
and no checksum is stored under a bare decimal key, so validate_cache
never enters its checksum branch. -/
def TranscriptSavesOk (st : CacheState) (b : String) : Prop :=
  (∀ q ∈ (metaOf st b).pagesCached, (alookup st.files (b, q, "transcript")).isSome = true) ∧
  (∀ q : Nat, alookup (metaOf st b).checksums (numToStr q) = none)

/-- Browser work: anything that drives the browsing session. -/
def isBrowserEffect : Effect → Bool
  | Effect.openSession _ => true
  | Effect.navPage _ _ => true
  | Effect.navUrl _ => true
  | Effect.cacheWrite => false

/-- Page list extracted from a processing result; empty on error. -/
def pagesOf : Except ExtErr BookData → List PageRecord
  | Except.ok d => d.pages
  | Except.error _ => []

/-- Transparent stand-in for the md5 hex digest in concrete test states:
the claims under verification depend only on the hash being a
deterministic function of the content. -/
def idHash : String → String := fun s => s

/-- Concrete download environment for the failing run of claim C1: pages
3 and 7 fail on both tabs, all other pages succeed. -/
def c1Env : DownloadEnv :=
  { hash := idHash, pageCountDetect := 10,
    fetchOk := fun p _ => !(p == 3 || p == 7),
    fetchHtml := fun p t => "html " ++ numToStr p ++ " " ++ t,
    spaFetchOk := true, spaDoc := "", parseStruct := fun _ => [] }

/-- Concrete paginated-portal book identity for claim C1. -/
def c1Ident : BookIdent :=
  { bookId := "bk", portalType := "gundert", baseUrl := "base", bookUrl := "url" }

/-- A cached-and-valid one-page book state used by witnesses. -/
def cachedValidState : CacheState :=
  savePageContent idHash emptyCache "bw" 1 "x" "transcript"

/-- Concrete state for claim C3: one page saved with a recorded
checksum. -/
def c3SavedState : CacheState := savePageContent idHash emptyCache "b" 1 "x" "transcript"

/-- Concrete state for claim C3: the on-disk blob of the saved page
modified after the save, so its hash no longer matches the recorded
checksum. -/
def c3CorruptState : CacheState :=
  { c3SavedState with files := aupsert c3SavedState.files ("b", 1, "transcript") "y" }

/-- Concrete download environment for the claim C4 witness. -/
def c4Env : DownloadEnv :=
  { hash := idHash, pageCountDetect := 1,
    fetchOk := fun _ _ => true, fetchHtml := fun _ _ => "h",
    spaFetchOk := true, spaDoc := "", parseStruct := fun _ => [] }

/-- Concrete cached book identity for the claim C4 witness. -/
def c4Ident : BookIdent :=
  { bookId := "bw", portalType := "gundert", baseUrl := "u", bookUrl := "u" }

/-- Concrete SPA download environment for the claim C5 witness: the
parsed page index holds pages 1 and 2 only. -/
def c5Env : DownloadEnv :=
  { hash := idHash, pageCountDetect := 3,
    fetchOk := fun _ _ => true, fetchHtml := fun _ _ => "h",
    spaFetchOk := true, spaDoc := "spadoc data-pages=",
    parseStruct := fun _ => [1, 2] }

/-- Concrete processing environment for the claim C6 witness: JavaScript
execution always fails after navigation, nothing raises. -/
def c6Env : ProcEnv :=
  { seleniumAvailable := true,
    jsResult := fun _ _ => JsOutcome.failAfterNav "timeout",
    structuralTranscript := fun _ _ => noCachedTranscript,
    structuralImage := fun _ _ => (none, none),
    unexpected := fun _ _ => none }

/-- A cached single-page-application book state: the stored document
carries the data-pages marker that _detect_spa_website looks for. -/
def spaCachedState : CacheState :=
  savePageContent idHash
    (savePageContent idHash emptyCache "bs" 1 "x data-pages= y" "transcript")
    "bs" 1 "x data-pages= y" "view"

/-- Concrete processing environment for the claim C8 witness. -/
def c8Env : ProcEnv :=
  { seleniumAvailable := false,
    jsResult := fun _ _ => JsOutcome.failBeforeNav "no selenium",
    structuralTranscript := fun _ _ => noCachedTranscript,
    structuralImage := fun _ _ => (none, none),
    unexpected := fun _ _ => none }

/-- Concrete processing environment for the claim C9 witness: JavaScript
execution succeeds, so a navigation effect is emitted. -/
def c9Env : ProcEnv :=
  { seleniumAvailable := true,
    jsResult := fun _ _ => JsOutcome.ok [],
    structuralTranscript := fun _ _ => noCachedTranscript,
    structuralImage := fun _ _ => (none, none),
    unexpected := fun _ _ => none }

/-- Concrete orchestrator environment for the claim C7 witness. -/
def c7Env : OrchestratorEnv :=
  { dl := c4Env, proc := c8Env, order := [], maxWorkers := 4 }

/-! ## Library lemmas about the model building blocks -/

theorem alookup_aupsert_self {κ α : Type} [DecidableEq κ]
    (l : List (κ × α)) (k : κ) (v : α) : alookup (aupsert l k v) k = some v := by
  induction l with
  | nil => simp [aupsert, alookup]
  | cons h t ih =>
      obtain ⟨k0, v0⟩ := h
      by_cases hk : k = k0
      · simp [aupsert, hk, alookup]
      · simp [aupsert, hk, alookup, ih]

theorem alookup_aupsert_ne {κ α : Type} [DecidableEq κ]
    (l : List (κ × α)) (k k0 : κ) (v : α) (h : k0 ≠ k) :
    alookup (aupsert l k v) k0 = alookup l k0 := by
  induction l with
  | nil => simp [aupsert, alookup, h]
  | cons hd t ih =>
      obtain ⟨k1, v1⟩ := hd
      by_cases hk : k = k1
      · subst hk
        simp [aupsert, alookup, h]
      · by_cases hk0 : k0 = k1
        · simp [aupsert, hk, alookup, hk0]
        · simp [aupsert, hk, alookup, hk0, ih]

theorem isSome_alookup_aupsert {κ α : Type} [DecidableEq κ]
    (l : List (κ × α)) (k : κ) (v : α) :
    (alookup (aupsert l k v) k).isSome = true := by
  rw [alookup_aupsert_self]
  rfl

theorem insertByKey_perm {α : Type} (key : α → Nat) (a : α) (l : List α) :
    List.Perm (insertByKey key a l) (a :: l) := by
  induction l with
  | nil => simp [insertByKey]
  | cons b t ih =>
      by_cases h : key a ≤ key b
      · simp [insertByKey, h]
      · simp only [insertByKey, h, if_neg, ite_false]
        exact List.Perm.trans (List.Perm.cons b ih) (List.Perm.swap a b t)

theorem sortByKey_perm {α : Type} (key : α → Nat) (l : List α) :
    List.Perm (sortByKey key l) l := by
  induction l with
  | nil => simp [sortByKey]
  | cons a t ih =>
      exact List.Perm.trans (insertByKey_perm key a (sortByKey key t)) (List.Perm.cons a ih)

theorem mem_insertByKey {α : Type} (key : α → Nat) (a x : α) (l : List α) :
    x ∈ insertByKey key a l ↔ x = a ∨ x ∈ l := by
  rw [List.Perm.mem_iff (insertByKey_perm key a l)]
  simp

theorem pairwise_insertByKey {α : Type} (key : α → Nat) (a : α) (l : List α)
    (h : List.Pairwise (fun x y => key x ≤ key y) l) :
    List.Pairwise (fun x y => key x ≤ key y) (insertByKey key a l) := by
  induction l with
  | nil => simp [insertByKey]
  | cons b t ih =>
      rcases h with _ | ⟨hb, ht⟩
      by_cases hab : key a ≤ key b
      · simp only [insertByKey, hab, ite_true]
        refine List.Pairwise.cons ?_ (List.Pairwise.cons hb ht)
        intro x hx
        rcases List.mem_cons.mp hx with rfl | hx
        · exact hab
        · exact Nat.le_trans hab (hb x hx)
      · simp only [insertByKey, hab, ite_false]
        refine List.Pairwise.cons ?_ (ih ht)
        intro x hx
        rcases (mem_insertByKey key a x t).mp hx with hxa | hxt
        · subst hxa
          exact Nat.le_of_lt (Nat.lt_of_not_le hab)
        · exact hb x hxt

theorem sortByKey_pairwise {α : Type} (key : α → Nat) (l : List α) :
    List.Pairwise (fun x y => key x ≤ key y) (sortByKey key l) := by
  induction l with
  | nil => simp [sortByKey]
  | cons a t ih => exact pairwise_insertByKey key a (sortByKey key t) ih

theorem pairwise_lt_of_le_nodup {α : Type} (key : α → Nat) (l : List α)
    (hle : List.Pairwise (fun x y => key x ≤ key y) l)
    (hnd : (l.map key).Nodup) :
    List.Pairwise (fun x y => key x < key y) l := by
  have hne : List.Pairwise (fun x y => key x ≠ key y) l := List.pairwise_map.mp hnd
  exact (hle.and hne).imp (fun h => Nat.lt_of_le_of_ne h.1 h.2)

theorem eq_of_perm_of_keyLt {α : Type} (key : α → Nat) (l1 l2 : List α)
    (hp : List.Perm l1 l2)
    (h1 : List.Pairwise (fun x y => key x < key y) l1)
    (h2 : List.Pairwise (fun x y => key x < key y) l2) : l1 = l2 := by
  haveI : IsAntisymm α (fun x y => key x < key y) :=
    ⟨fun a b hab hba => absurd (Nat.lt_trans hab hba) (Nat.lt_irrefl _)⟩
  exact List.eq_of_perm_of_sorted hp h1 h2

theorem listMax_cons (a : Nat) (l : List Nat) : listMax (a :: l) = max a (listMax l) := rfl

theorem listMax_perm (l1 l2 : List Nat) (h : List.Perm l1 l2) :
    listMax l1 = listMax l2 := by
  induction h with
  | nil => rfl
  | cons x _ ih => rw [listMax_cons, listMax_cons, ih]
  | swap x y t =>
      rw [listMax_cons, listMax_cons, listMax_cons, listMax_cons]
      rw [← Nat.max_assoc, Nat.max_comm y x, Nat.max_assoc]
  | trans _ _ ih1 ih2 => rw [ih1, ih2]

theorem listMax_append_singleton (l : List Nat) (p : Nat) :
    listMax (l ++ [p]) = max (listMax l) p := by
  have h := listMax_perm (l ++ [p]) (p :: l) (List.perm_append_comm)
  rw [h, listMax_cons, Nat.max_comm]

theorem mem_le_listMax (p : Nat) (l : List Nat) (h : p ∈ l) : p ≤ listMax l := by
  induction l with
  | nil => cases h
  | cons a t ih =>
      rw [listMax_cons]
      rcases List.mem_cons.mp h with rfl | hm
      · exact Nat.le_max_left _ _
      · exact Nat.le_trans (ih hm) (Nat.le_max_right _ _)

theorem digitChr_ne_underscore (d : Nat) (h : d < 10) : digitChr d ≠ Char.ofNat 95 := by
  interval_cases d <;> decide

theorem natCharsAux_digits (fuel : Nat) : ∀ n : Nat, ∀ c ∈ natCharsAux fuel n,
    ∃ d, d < 10 ∧ c = digitChr d := by
  induction fuel with
  | zero => intro n c hc; cases hc
  | succ f ih =>
      intro n c hc
      by_cases h : n < 10
      · simp only [natCharsAux, h, ite_true, List.mem_singleton] at hc
        exact ⟨n, h, hc⟩
      · simp only [natCharsAux, h, ite_false, List.mem_append, List.mem_singleton] at hc
        rcases hc with hc | hc
        · exact ih (n / 10) c hc
        · exact ⟨n % 10, Nat.mod_lt n (by omega), hc⟩

theorem underscore_not_in_numToStr (n : Nat) : Char.ofNat 95 ∉ (numToStr n).data := by
  intro hmem
  obtain ⟨d, hd, hc⟩ := natCharsAux_digits (n + 1) n _ hmem
  exact digitChr_ne_underscore d hd hc.symm

theorem underscore_in_checksumKey (p : Nat) (tab : String) :
    Char.ofNat 95 ∈ (checksumKey p tab).data := by
  show Char.ofNat 95 ∈ (numToStr p ++ "_" ++ tab).data
  rw [String.data_append, String.data_append]
  refine List.mem_append.mpr (Or.inl (List.mem_append.mpr (Or.inr ?_)))
  decide

theorem numToStr_ne_checksumKey (q p : Nat) (tab : String) :
    numToStr q ≠ checksumKey p tab := by
  intro h
  have hmem : Char.ofNat 95 ∈ (numToStr q).data := by
    rw [h]
    exact underscore_in_checksumKey p tab
  exact underscore_not_in_numToStr q hmem

/-! ## Lemmas about the cache operations -/

theorem save_files (hash : String → String) (st : CacheState) (b : String)
    (p : Nat) (c tab : String) :
    (savePageContent hash st b p c tab).files = aupsert st.files (b, p, tab) c := rfl

theorem metaOf_save (hash : String → String) (st : CacheState) (b : String)
    (p : Nat) (c tab : String) :
    metaOf (savePageContent hash st b p c tab) b = updateMeta hash (metaOf st b) p tab c := by
  unfold metaOf savePageContent updMetadata
  cases halo : alookup st.metas b with
  | none => simp [halo, alookup_aupsert_self]
  | some m => simp [halo, alookup_aupsert_self]

theorem isCached_save (hash : String → String) (st : CacheState) (b : String)
    (p : Nat) (c tab : String) :
    isCached (savePageContent hash st b p c tab) b = true := by
  unfold isCached savePageContent updMetadata
  cases halo : alookup st.metas b <;>
    simp [halo, isSome_alookup_aupsert]

theorem load_save_self (hash : String → String) (st : CacheState) (b : String)
    (p : Nat) (c tab : String) :
    loadPageContent (savePageContent hash st b p c tab) b p tab = some c := by
  show alookup (aupsert st.files (b, p, tab) c) (b, p, tab) = some c
  exact alookup_aupsert_self _ _ _

theorem load_save_other (hash : String → String) (st : CacheState) (b : String)
    (p : Nat) (c tab : String) (b0 : String) (p0 : Nat) (tab0 : String)
    (h : (b0, p0, tab0) ≠ (b, p, tab)) :
    loadPageContent (savePageContent hash st b p c tab) b0 p0 tab0 =
      loadPageContent st b0 p0 tab0 := by
  show alookup (aupsert st.files (b, p, tab) c) (b0, p0, tab0) = alookup st.files (b0, p0, tab0)
  exact alookup_aupsert_ne _ _ _ _ h

theorem load_save_of_same_content (hash : String → String) (st : CacheState)
    (b : String) (p : Nat) (c tab : String) (b0 : String) (p0 : Nat) (tab0 : String)
    (h : loadPageContent st b0 p0 tab0 = some c) :
    loadPageContent (savePageContent hash st b p c tab) b0 p0 tab0 = some c := by
  by_cases hk : (b0, p0, tab0) = (b, p, tab)
  · have hb : b0 = b := congrArg (fun x => x.1) hk
    have hp : p0 = p := congrArg (fun x => x.2.1) hk
    have ht : tab0 = tab := congrArg (fun x => x.2.2) hk
    subst hb
    subst hp
    subst ht
    exact load_save_self hash st b0 p0 c tab0
  · rw [load_save_other hash st b p c tab b0 p0 tab0 hk]
    exact h

theorem updateMeta_pagesCached_mem (hash : String → String) (m : CacheMeta)
    (p : Nat) (tab content : String) (q : Nat) :
    q ∈ (updateMeta hash m p tab content).pagesCached ↔ q ∈ m.pagesCached ∨ q = p := by
  unfold updateMeta
  by_cases hp : p ∈ m.pagesCached
  · simp only [hp, ite_true]
    constructor
    · exact fun h => Or.inl h
    · rintro (h | rfl)
      · exact h
      · exact hp
  · simp only [hp, ite_false]
    rw [List.Perm.mem_iff (sortByKey_perm (fun n => n) (m.pagesCached ++ [p]))]
    simp [List.mem_append]

theorem updateMeta_checksums_numToStr (hash : String → String) (m : CacheMeta)
    (p : Nat) (tab content : String) (q : Nat) :
    alookup (updateMeta hash m p tab content).checksums (numToStr q) =
      alookup m.checksums (numToStr q) :=
  alookup_aupsert_ne _ _ _ _ (numToStr_ne_checksumKey q p tab)

theorem updateMeta_pageCount (hash : String → String) (m : CacheMeta)
    (p : Nat) (tab content : String) :
    (updateMeta hash m p tab content).pageCount = max m.pageCount p := rfl

theorem updateMeta_invMeta (hash : String → String) (m : CacheMeta)
    (p : Nat) (tab content : String) (h : InvMeta m) :
    InvMeta (updateMeta hash m p tab content) := by
  obtain ⟨hpw, hpc⟩ := h
  unfold InvMeta updateMeta
  by_cases hp : p ∈ m.pagesCached
  · simp only [hp, ite_true]
    refine ⟨hpw, ?_⟩
    rw [hpc]
    exact Nat.max_eq_left (mem_le_listMax p m.pagesCached hp)
  · simp only [hp, ite_false]
    have hnd : m.pagesCached.Nodup := hpw.imp (fun hab => Nat.ne_of_lt hab)
    have hcons : (p :: m.pagesCached).Nodup :=
      List.Pairwise.cons (fun x hx heq => hp (heq.symm ▸ hx)) hnd
    have hnd2 : (m.pagesCached ++ [p]).Nodup :=
      List.Perm.nodup
        (List.perm_append_comm : ([p] ++ m.pagesCached).Perm (m.pagesCached ++ [p])) hcons
    have hnd3 : (sortByKey (fun n => n) (m.pagesCached ++ [p])).Nodup :=
      List.Perm.nodup (List.Perm.symm (sortByKey_perm _ _)) hnd2
    refine ⟨?_, ?_⟩
    · refine pairwise_lt_of_le_nodup (fun n => n) _ (sortByKey_pairwise _ _) ?_
      simpa using hnd3
    · rw [hpc, ← listMax_append_singleton]
      exact (listMax_perm _ _ (sortByKey_perm (fun n => n) (m.pagesCached ++ [p]))).symm

theorem applySaves_append (hash : String → String) (b : String)
    (l1 l2 : List (Nat × String × String)) : ∀ st : CacheState,
    applySaves hash b (l1 ++ l2) st = applySaves hash b l2 (applySaves hash b l1 st) := by
  induction l1 with
  | nil => intro st; rfl
  | cons s t ih => intro st; exact ih _

theorem foldr_max_init (l : List Nat) (a x : Nat) :
    l.foldr max (max a x) = max x (l.foldr max a) := by
  induction l with
  | nil => exact Nat.max_comm a x
  | cons y t ih =>
      simp only [List.foldr_cons, ih]
      rw [← Nat.max_assoc, Nat.max_comm y x, Nat.max_assoc]

theorem applySaves_invMeta (hash : String → String) (b : String) :
    ∀ (saves : List (Nat × String × String)) (st : CacheState),
    InvMeta (metaOf st b) →
    InvMeta (metaOf (applySaves hash b saves st) b) ∧
    (metaOf (applySaves hash b saves st) b).pageCount =
      (saves.map (fun s => s.1)).foldr max (metaOf st b).pageCount := by
  intro saves
  induction saves with
  | nil => intro st h; exact ⟨h, rfl⟩
  | cons s rest ih =>
      intro st h
      have hsave : metaOf (savePageContent hash st b s.1 s.2.2 s.2.1) b =
          updateMeta hash (metaOf st b) s.1 s.2.1 s.2.2 := metaOf_save hash st b s.1 s.2.2 s.2.1
      have hinv : InvMeta (metaOf (savePageContent hash st b s.1 s.2.2 s.2.1) b) := by
        rw [hsave]
        exact updateMeta_invMeta hash (metaOf st b) s.1 s.2.1 s.2.2 h
      obtain ⟨h1, h2⟩ := ih (savePageContent hash st b s.1 s.2.2 s.2.1) hinv
      refine ⟨h1, ?_⟩
      show (metaOf (applySaves hash b rest (savePageContent hash st b s.1 s.2.2 s.2.1)) b).pageCount = _
      rw [h2, hsave, updateMeta_pageCount]
      simp only [List.map_cons, List.foldr_cons]
      exact foldr_max_init (rest.map (fun s => s.1)) (metaOf st b).pageCount s.1

theorem save_transcriptOk (hash : String → String) (st : CacheState) (b : String)
    (p : Nat) (c : String) (h : TranscriptSavesOk st b) :
    TranscriptSavesOk (savePageContent hash st b p c "transcript") b := by
  obtain ⟨hfiles, hcs⟩ := h
  constructor
  · intro q hq
    rw [metaOf_save] at hq
    rw [show (savePageContent hash st b p c "transcript").files =
        aupsert st.files (b, p, "transcript") c from rfl]
    rcases (updateMeta_pagesCached_mem hash (metaOf st b) p "transcript" c q).mp hq with hm | rfl
    · by_cases hqp : q = p
      · subst hqp
        exact isSome_alookup_aupsert _ _ _
      · rw [alookup_aupsert_ne st.files (b, p, "transcript") (b, q, "transcript") c
            (by intro hcontra; exact hqp (congrArg (fun x => x.2.1) hcontra))]
        exact hfiles q hm
    · exact isSome_alookup_aupsert _ _ _
  · intro q
    rw [metaOf_save, updateMeta_checksums_numToStr]
    exact hcs q

theorem applySaves_transcriptOk (hash : String → String) (b : String) :
    ∀ (saves : List (Nat × String × String)) (st : CacheState),
    (∀ s ∈ saves, s.2.1 = "transcript") → TranscriptSavesOk st b →
    TranscriptSavesOk (applySaves hash b saves st) b := by
  intro saves
  induction saves with
  | nil => intro st _ h; exact h
  | cons s rest ih =>
      intro st htab h
      have hs : s.2.1 = "transcript" := htab s (List.mem_cons_self s rest)
      show TranscriptSavesOk (applySaves hash b rest (savePageContent hash st b s.1 s.2.2 s.2.1)) b
      refine ih _ (fun x hx => htab x (List.mem_cons_of_mem s hx)) ?_
      rw [hs]
      exact save_transcriptOk hash st b s.1 s.2.2 h

theorem fresh_transcriptOk (st : CacheState) (b : String)
    (hfresh : alookup st.metas b = none) : TranscriptSavesOk st b := by
  have hm : metaOf st b = freshMeta b "unknown" "unknown" := by
    unfold metaOf
    rw [hfresh]
    rfl
  constructor
  · intro q hq
    rw [hm] at hq
    cases hq
  · intro q
    rw [hm]
    rfl

theorem validatePage_nil (hash : String → String) (st : CacheState) (b : String)
    (cs : List (String × String)) (q : Nat)
    (hf : (alookup st.files (b, q, "transcript")).isSome = true)
    (hcs : alookup cs (numToStr q) = none) :
    validatePage hash st b cs q = [] := by
  unfold validatePage
  cases hfile : alookup st.files (b, q, "transcript") with
  | none => rw [hfile] at hf; cases hf
  | some content => simp [hfile, hcs]

theorem foldl_append_nil {α : Type} (f : α → List String) (l : List α)
    (h : ∀ p ∈ l, f p = []) :
    ∀ acc : List String, l.foldl (fun a p => a ++ f p) acc = acc := by
  induction l with
  | nil => intro acc; rfl
  | cons p t ih =>
      intro acc
      have hp := h p (List.mem_cons_self p t)
      simp only [List.foldl_cons, hp, List.append_nil]
      exact ih (fun q hq => h q (List.mem_cons_of_mem p hq)) acc

theorem validate_of_transcriptOk (hash : String → String) (st : CacheState) (b : String)
    (hc : isCached st b = true) (h : TranscriptSavesOk st b) :
    validateCache hash st b = (true, []) := by
  obtain ⟨hfiles, hcs⟩ := h
  unfold validateCache
  cases halo : alookup st.metas b with
  | none =>
      unfold isCached at hc
      rw [halo] at hc
      cases hc
  | some m =>
      have hm : metaOf st b = m := by
        unfold metaOf
        rw [halo]
        rfl
      have hnil : ∀ q ∈ m.pagesCached, validatePage hash st b m.checksums q = [] := by
        intro q hq
        refine validatePage_nil hash st b m.checksums q ?_ ?_
        · exact hfiles q (hm ▸ hq)
        · rw [← hm]
          exact hcs q
      dsimp only
      rw [foldl_append_nil (validatePage hash st b m.checksums) m.pagesCached hnil []]
      rfl

/-! ## Lemmas about the SPA download worker -/

theorem spaSavePages_failed (hash : String → String) (doc : String) (m : Nat)
    (b : String) : ∀ (pages : List Nat) (st : CacheState),
    (spaSavePages hash doc m b pages st).2.1 = pages.filter (fun q => decide (m < q)) := by
  intro pages
  induction pages with
  | nil => intro st; rfl
  | cons p rest ih =>
      intro st
      by_cases hp : p > m
      · simp [spaSavePages, hp, ih]
      · simp [spaSavePages, hp, ih]

theorem spaSavePages_load_preserve (hash : String → String) (doc : String) (m : Nat)
    (b : String) (p0 : Nat) (tab0 : String) : ∀ (pages : List Nat) (st : CacheState),
    loadPageContent st b p0 tab0 = some doc →
    loadPageContent (spaSavePages hash doc m b pages st).2.2.1 b p0 tab0 = some doc := by
  intro pages
  induction pages with
  | nil => intro st h; exact h
  | cons p rest ih =>
      intro st h
      by_cases hp : p > m
      · simp only [spaSavePages, hp, ite_true]
        exact ih st h
      · simp only [spaSavePages, hp, ite_false]
        refine ih _ ?_
        exact load_save_of_same_content hash _ b p doc "view" b p0 tab0
          (load_save_of_same_content hash st b p doc "transcript" b p0 tab0 h)

theorem spaSavePages_load (hash : String → String) (doc : String) (m : Nat)
    (b : String) : ∀ (pages : List Nat) (st : CacheState) (p : Nat) (tab : String),
    p ∈ pages → ¬ m < p → (tab = "transcript" ∨ tab = "view") →
    loadPageContent (spaSavePages hash doc m b pages st).2.2.1 b p tab = some doc := by
  intro pages
  induction pages with
  | nil => intro st p tab hmem; cases hmem
  | cons p0 rest ih =>
      intro st p tab hmem hle htab
      by_cases hp0 : p0 > m
      · simp only [spaSavePages, hp0, ite_true]
        rcases List.mem_cons.mp hmem with rfl | hmem2
        · exact absurd hp0 hle
        · exact ih st p tab hmem2 hle htab
      · simp only [spaSavePages, hp0, ite_false]
        rcases List.mem_cons.mp hmem with rfl | hmem2
        · refine spaSavePages_load_preserve hash doc m b p tab rest _ ?_
          rcases htab with rfl | rfl
          · exact load_save_of_same_content hash _ b p doc "view" b p "transcript"
              (load_save_self hash st b p doc "transcript")
          · exact load_save_self hash _ b p doc "view"
        · exact ih _ p tab hmem2 hle htab

theorem spaSavePages_effects (hash : String → String) (doc : String) (m : Nat)
    (b : String) : ∀ (pages : List Nat) (st : CacheState),
    ∀ e ∈ (spaSavePages hash doc m b pages st).2.2.2, e = Effect.cacheWrite := by
  intro pages
  induction pages with
  | nil => intro st e he; cases he
  | cons p rest ih =>
      intro st e he
      by_cases hp : p > m
      · simp only [spaSavePages, hp, ite_true] at he
        exact ih st e he
      · simp only [spaSavePages, hp, ite_false, List.mem_cons] at he
        rcases he with rfl | rfl | he
        · rfl
        · rfl
        · exact ih _ e he

theorem filter_false_nil {α : Type} (f : α → Bool) (l : List α)
    (h : ∀ e ∈ l, f e = false) : l.filter f = [] := by
  induction l with
  | nil => rfl
  | cons a t ih =>
      have ha := h a (List.mem_cons_self a t)
      simp only [List.filter_cons, ha, ite_false, Bool.false_eq_true]
      exact ih (fun e he => h e (List.mem_cons_of_mem a he))

/-! ## Lemmas about the processing worker -/

theorem processPage_pageNumber (env : ProcEnv) (st : CacheState) (bookId : String)
    (page : Nat) : (processPage env st bookId page).fst.pageNumber = page := by
  unfold processPage
  cases h : env.unexpected bookId page <;> rfl

theorem executeSpa_effects (env : ProcEnv) (page : Nat) (ct : String) (e : Effect)
    (he : e ∈ (executeSpaExtraction env page ct).snd) :
    e = Effect.navUrl (spaPageUrl ct page) := by
  unfold executeSpaExtraction at he
  cases hs : env.seleniumAvailable with
  | false => rw [hs] at he; cases he
  | true =>
      rw [hs] at he
      cases hj : env.jsResult page ct with
      | ok lines =>
          rw [hj] at he
          simp at he
          exact he
      | failAfterNav err =>
          rw [hj] at he
          simp at he
          exact he
      | failBeforeNav err =>
          rw [hj] at he
          simp at he

theorem extractSpa_effects (env : ProcEnv) (html : Option String) (page : Nat)
    (ct : String) (e : Effect)
    (he : e ∈ (extractSpaPageContent env html page ct).snd) :
    e = Effect.navUrl (spaPageUrl ct page) := by
  unfold extractSpaPageContent at he
  cases html with
  | none => cases he
  | some h =>
      by_cases hh : h = ""
      · simp only [hh, ite_true] at he
        cases he
      · simp only [hh, ite_false] at he
        cases hres : executeSpaExtraction env page ct with
        | mk res effs =>
            rw [hres] at he
            have heffs : e ∈ (executeSpaExtraction env page ct).snd := by
              rw [hres]
              cases res <;> exact he
            exact executeSpa_effects env page ct e heffs

theorem extractSpa_js_failure (env : ProcEnv) (h : String) (page : Nat) (ct : String)
    (hne : h ≠ "")
    (hjs : ∀ lines, (executeSpaExtraction env page ct).fst ≠ JsOutcome.ok lines) :
    (extractSpaPageContent env (some h) page ct).fst = staticFallbackInfo page ct := by
  unfold extractSpaPageContent
  simp only [hne, ite_false]
  cases hres : executeSpaExtraction env page ct with
  | mk res effs =>
      cases res with
      | ok lines =>
          exfalso
          refine hjs lines ?_
          rw [hres]
      | failAfterNav err => rfl
      | failBeforeNav err => rfl

theorem processPage_unexpected (env : ProcEnv) (st : CacheState) (bookId : String)
    (page : Nat) (e : String) (h : env.unexpected bookId page = some e) :
    processPage env st bookId page =
      ({ pageNumber := page, extractionSuccess := false, transcriptInfo := none,
         imageInfo := ImageInfo.empty, contentAnalysis := none,
         error := some e }, []) := by
  unfold processPage
  rw [h]

theorem processPage_success (env : ProcEnv) (st : CacheState) (bookId : String)
    (page : Nat) (h : env.unexpected bookId page = none) :
    (processPage env st bookId page).fst.extractionSuccess = true := by
  unfold processPage
  rw [h]

/-! ## Claim theorems -/

/-- Claim C1: in a sequential download of pages 1..10 in which exactly
pages 3 and 7 fail (both tabs), DownloadProgress does record the per-page
failures [3, 7] and the other eight pages are cached, but the returned
statistics list NO failed page numbers: the failure-recording block sits
outside the page loop in the source (download_phase.py lines 414-416), so
only the last page could ever reach failed_page_numbers.  This run is the
failing input refuting the claim that the statistics list exactly the
failed pages. -/
theorem c1_download_statistics_drop_failures :
    c1Env.fetchOk 3 "transcript" = false ∧ c1Env.fetchOk 3 "view" = false ∧
    c1Env.fetchOk 7 "transcript" = false ∧ c1Env.fetchOk 7 "view" = false ∧
    c1Env.fetchOk 1 "transcript" = true ∧ c1Env.fetchOk 10 "view" = true ∧
    (downloadBook c1Env emptyCache c1Ident 1 (some 10) false).fst.progress.map
        (fun pr => pr.failedPages) = some [3, 7] ∧
    (downloadBook c1Env emptyCache c1Ident 1 (some 10) false).fst.stats.map
        (fun s => s.failedPageNumbers) = some [] ∧
    (downloadBook c1Env emptyCache c1Ident 1 (some 10) false).fst.stats.map
        (fun s => s.successfulPages) = some 10 ∧
    getCachedPages (downloadBook c1Env emptyCache c1Ident 1 (some 10) false).snd.fst "bk"
      = [1, 2, 4, 5, 6, 8, 9, 10] := by
  refine ⟨?_, ?_, ?_, ?_, ?_, ?_, ?_, ?_, ?_, ?_⟩ <;> decide

/-- Claim C2 (amended): the cache round-trip holds for every key and
every state - load after save returns the saved content byte-identically -
and validate_cache reports zero issues after a save when the book was
populated from fresh exclusively with saves of contentKind
"transcript".  (As stated, the zero-issues half of the claim fails for
other content kinds; see the counterexample.) -/
theorem c2_roundtrip_and_validate (hash : String → String) (st0 st : CacheState)
    (b0 b : String) (q : Nat) (ct tab : String)
    (saves : List (Nat × String × String)) (s0 : Nat × String × String)
    (hfresh : alookup st.metas b = none)
    (htab : ∀ s ∈ saves ++ [s0], s.2.1 = "transcript") :
    loadPageContent (savePageContent hash st0 b0 q ct tab) b0 q tab = some ct ∧
    validateCache hash (applySaves hash b (saves ++ [s0]) st) b = (true, []) := by
  refine ⟨load_save_self hash st0 b0 q ct tab, ?_⟩
  have hOk : TranscriptSavesOk (applySaves hash b (saves ++ [s0]) st) b :=
    applySaves_transcriptOk hash b (saves ++ [s0]) st htab (fresh_transcriptOk st b hfresh)
  have hcached : isCached (applySaves hash b (saves ++ [s0]) st) b = true := by
    rw [applySaves_append]
    exact isCached_save hash (applySaves hash b saves st) b s0.1 s0.2.2 s0.2.1
  exact validate_of_transcriptOk hash _ b hcached hOk

/-- Witness for claim C2: the amended statement applied to a concrete
fresh book with one transcript save, and a concrete independent
round-trip with contentKind view. -/
theorem c2_roundtrip_and_validate_witness :
    loadPageContent (savePageContent idHash emptyCache "a" 2 "c" "view") "a" 2 "view" = some "c" ∧
    validateCache idHash
        (applySaves idHash "b" ([] ++ [(1, "transcript", "hello")]) emptyCache) "b" = (true, []) :=
  c2_roundtrip_and_validate idHash emptyCache emptyCache "a" "b" 2 "c" "view"
    [] (1, "transcript", "hello") rfl (by decide)

/-- Counterexample for claim C2 as stated: a successful save with
contentKind "view" round-trips, but validate_cache immediately reports
an issue, because validation only ever checks the transcript blob
(cache.py line 203) while the save listed the page in pages_cached. -/
theorem c2_view_save_breaks_validate :
    loadPageContent (savePageContent idHash emptyCache "b" 1 "hello" "view") "b" 1 "view"
      = some "hello" ∧
    validateCache idHash (savePageContent idHash emptyCache "b" 1 "hello" "view") "b"
      = (false, ["Page 1 file missing"]) ∧
    (validateCache idHash (savePageContent idHash emptyCache "b" 1 "hello" "view") "b").snd
      ≠ [] := by
  refine ⟨?_, ?_, ?_⟩ <;> decide

/-- Claim C3: save_page_content records the checksum of content "x"
under the key "1_transcript" (cache.py line 280), the on-disk blob is
then corrupted to "y" whose hash differs from the recorded checksum, yet
validate_cache reports zero issues, because it looks the checksum up
under the bare key "1" (cache.py line 211) which is never written.  The
checksum verification required by the claim therefore never happens for
save-time checksums. -/
theorem c3_recorded_checksums_never_validated :
    alookup (metaOf c3SavedState "b").checksums (checksumKey 1 "transcript")
      = some (idHash "x") ∧
    loadPageContent c3CorruptState "b" 1 "transcript" = some "y" ∧
    idHash "y" ≠ idHash "x" ∧
    validateCache idHash c3CorruptState "b" = (true, []) := by
  refine ⟨?_, ?_, ?_, ?_⟩ <;> decide

/-- Claim C4: when a book is cached, its cache validates with zero
issues, and force_redownload is false, download_book returns immediately
with from_cache true, leaves the cache state untouched, and its effect
trace is empty: no browsing session is opened, no navigation happens,
and nothing is written to the cache. -/
theorem c4_download_from_cache_no_io (env : DownloadEnv) (st : CacheState)
    (ident : BookIdent) (startPage : Nat) (endPageOpt : Option Nat)
    (hc : isCached st ident.bookId = true)
    (hv : (validateCache env.hash st ident.bookId).fst = true) :
    downloadBook env st ident startPage endPageOpt false =
      ({ success := true, fromCache := true, stats := none, progress := none }, st, []) := by
  unfold downloadBook
  simp [hc, hv]

/-- Witness for claim C4: a concrete cached-and-valid book; the second
download call is served from cache with an empty effect trace. -/
theorem c4_download_from_cache_no_io_witness :
    isCached cachedValidState "bw" = true ∧
    (validateCache c4Env.hash cachedValidState "bw").fst = true ∧
    downloadBook c4Env cachedValidState c4Ident 3 (some 9) false =
      ({ success := true, fromCache := true, stats := none, progress := none },
       cachedValidState, []) :=
  ⟨by decide, by decide,
    c4_download_from_cache_no_io c4Env cachedValidState c4Ident 3 (some 9)
      (by decide) (by decide)⟩

/-- Claim C10: starting from a book with no stored metadata, after any
nonempty sequence of save_page_content calls the persisted pages_cached
list is strictly ascending (sorted with no duplicates), page_count equals
the maximum page number saved so far (the fresh previous value being 0),
and page_count never decreases from one save to the next. -/
theorem c10_metadata_sorted_nodup_maxcount (hash : String → String) (st : CacheState)
    (b : String) (saves : List (Nat × String × String)) (s0 : Nat × String × String)
    (hfresh : alookup st.metas b = none) :
    List.Pairwise (fun a c => a < c)
      (metaOf (applySaves hash b (saves ++ [s0]) st) b).pagesCached ∧
    (metaOf (applySaves hash b (saves ++ [s0]) st) b).pagesCached.Nodup ∧
    (metaOf (applySaves hash b (saves ++ [s0]) st) b).pageCount =
      listMax ((saves ++ [s0]).map (fun s => s.1)) ∧
    (metaOf (applySaves hash b saves st) b).pageCount ≤
      (metaOf (applySaves hash b (saves ++ [s0]) st) b).pageCount := by
  have hm0 : metaOf st b = freshMeta b "unknown" "unknown" := by
    unfold metaOf
    rw [hfresh]
    rfl
  have hInv0 : InvMeta (metaOf st b) := by
    rw [hm0]
    exact ⟨List.Pairwise.nil, rfl⟩
  obtain ⟨hInv, hpc⟩ := applySaves_invMeta hash b (saves ++ [s0]) st hInv0
  have hpc0 : (metaOf st b).pageCount = 0 := by
    rw [hm0]
    rfl
  refine ⟨hInv.1, hInv.1.imp (fun hab => Nat.ne_of_lt hab), ?_, ?_⟩
  · rw [hpc, hpc0]
    rfl
  · have hsplit : metaOf (applySaves hash b (saves ++ [s0]) st) b =
        updateMeta hash (metaOf (applySaves hash b saves st) b) s0.1 s0.2.1 s0.2.2 := by
      rw [applySaves_append]
      exact metaOf_save hash (applySaves hash b saves st) b s0.1 s0.2.2 s0.2.1
    rw [hsplit, updateMeta_pageCount]
    exact Nat.le_max_left _ _

/-- Claim C5: for a single-page-application download with a nonempty
parsed page index, a requested page is recorded as failed exactly when it
exceeds the maximum page of the parsed index, every other requested page
is cached under both tabs with raw content identical to the single
fetched document, and the effect trace contains exactly one browser
navigation: the document is fetched once. -/
theorem c5_spa_fanout (env : DownloadEnv) (st : CacheState) (b : String)
    (requested : List Nat)
    (hfetch : env.spaFetchOk = true)
    (hne : env.parseStruct env.spaDoc ≠ []) :
    (∀ p ∈ requested,
        (p ∈ (downloadCompleteBook env st b requested).fst.failedPages ↔
          listMax (env.parseStruct env.spaDoc) < p)) ∧
    (∀ p ∈ requested, p ≤ listMax (env.parseStruct env.spaDoc) →
        loadPageContent (downloadCompleteBook env st b requested).snd.fst b p "transcript"
          = some env.spaDoc ∧
        loadPageContent (downloadCompleteBook env st b requested).snd.fst b p "view"
          = some env.spaDoc) ∧
    ((downloadCompleteBook env st b requested).snd.snd.filter isBrowserEffect).length = 1 := by
  have hie : (env.parseStruct env.spaDoc).isEmpty = false := by
    cases hs : env.parseStruct env.spaDoc with
    | nil => exact absurd hs hne
    | cons a t => rfl
  have hdl : downloadCompleteBook env st b requested =
      ({ pageResults :=
           (spaSavePages env.hash env.spaDoc (listMax (env.parseStruct env.spaDoc)) b requested st).fst,
         failedPages :=
           (spaSavePages env.hash env.spaDoc (listMax (env.parseStruct env.spaDoc)) b requested st).snd.fst },
       (spaSavePages env.hash env.spaDoc (listMax (env.parseStruct env.spaDoc)) b requested st).snd.snd.fst,
       Effect.navPage 1 "view" ::
         (spaSavePages env.hash env.spaDoc (listMax (env.parseStruct env.spaDoc)) b requested st).snd.snd.snd) := by
    simp only [downloadCompleteBook, hfetch, hie]
    rfl
  refine ⟨?_, ?_, ?_⟩
  · intro p hp
    rw [hdl]
    show p ∈ (spaSavePages env.hash env.spaDoc (listMax (env.parseStruct env.spaDoc)) b requested st).2.1 ↔ _
    rw [spaSavePages_failed]
    simp [List.mem_filter, hp]
  · intro p hp hle
    rw [hdl]
    exact ⟨spaSavePages_load env.hash env.spaDoc (listMax (env.parseStruct env.spaDoc)) b
        requested st p "transcript" hp (Nat.not_lt.mpr hle) (Or.inl rfl),
      spaSavePages_load env.hash env.spaDoc (listMax (env.parseStruct env.spaDoc)) b
        requested st p "view" hp (Nat.not_lt.mpr hle) (Or.inr rfl)⟩
  · rw [hdl]
    show (List.filter isBrowserEffect (Effect.navPage 1 "view" ::
        (spaSavePages env.hash env.spaDoc (listMax (env.parseStruct env.spaDoc)) b requested st).2.2.2)).length = 1
    rw [List.filter_cons]
    have hnil : (spaSavePages env.hash env.spaDoc (listMax (env.parseStruct env.spaDoc)) b
        requested st).2.2.2.filter isBrowserEffect = [] := by
      refine filter_false_nil isBrowserEffect _ (fun e he => ?_)
      rw [spaSavePages_effects env.hash env.spaDoc (listMax (env.parseStruct env.spaDoc)) b
        requested st e he]
      rfl
    rw [hnil]
    rfl

/-- Witness for claim C5: the parsed index holds pages 1 and 2, pages
1..3 are requested: page 3 fails, page 1 is cached under both tabs with
the fetched document, and there is exactly one navigation. -/
theorem c5_spa_fanout_witness :
    c5Env.spaFetchOk = true ∧
    c5Env.parseStruct c5Env.spaDoc ≠ [] ∧
    (3 ∈ (downloadCompleteBook c5Env emptyCache "bs" [1, 2, 3]).fst.failedPages ↔
      listMax (c5Env.parseStruct c5Env.spaDoc) < 3) ∧
    (loadPageContent (downloadCompleteBook c5Env emptyCache "bs" [1, 2, 3]).snd.fst "bs" 1 "transcript"
        = some c5Env.spaDoc ∧
     loadPageContent (downloadCompleteBook c5Env emptyCache "bs" [1, 2, 3]).snd.fst "bs" 1 "view"
        = some c5Env.spaDoc) ∧
    ((downloadCompleteBook c5Env emptyCache "bs" [1, 2, 3]).snd.snd.filter isBrowserEffect).length = 1 :=
  ⟨rfl, by decide,
   (c5_spa_fanout c5Env emptyCache "bs" [1, 2, 3] rfl (by decide)).1 3 (by decide),
   (c5_spa_fanout c5Env emptyCache "bs" [1, 2, 3] rfl (by decide)).2.1 1 (by decide) (by decide),
   (c5_spa_fanout c5Env emptyCache "bs" [1, 2, 3] rfl (by decide)).2.2⟩

/-- Claim C6: process_page is total and well formed - the record carries
the requested page number; an exception inside the worker body is
converted into a failed record carrying the error instead of raising;
without an exception the record reports success; and when the cached page
is a single-page-application document whose simulated-navigation
(JavaScript) extraction fails for any reason, the returned record holds
the clearly-labeled static-fallback placeholder tagged
spa_static_fallback rather than a page-level failure. -/
theorem c6_process_page_total_and_fallback (env : ProcEnv) (st : CacheState)
    (bookId : String) (page : Nat) :
    (processPage env st bookId page).fst.pageNumber = page ∧
    (∀ e, env.unexpected bookId page = some e →
        (processPage env st bookId page).fst.extractionSuccess = false ∧
        (processPage env st bookId page).fst.error = some e) ∧
    (env.unexpected bookId page = none →
        (processPage env st bookId page).fst.extractionSuccess = true) ∧
    (∀ h, env.unexpected bookId page = none →
        loadPageContent st bookId page "transcript" = some h → h ≠ "" →
        detectSpa (orElseStr (some h)
          (orElseStr (loadPageContent st bookId page "view") "")) = true →
        (∀ lines, (executeSpaExtraction env page "transcript").fst ≠ JsOutcome.ok lines) →
        (processPage env st bookId page).fst.transcriptInfo
            = some (staticFallbackInfo page "transcript") ∧
        (staticFallbackInfo page "transcript").extractionMethod = some "spa_static_fallback" ∧
        (staticFallbackInfo page "transcript").available = true) := by
  refine ⟨processPage_pageNumber env st bookId page, ?_, ?_, ?_⟩
  · intro e he
    rw [processPage_unexpected env st bookId page e he]
    exact ⟨rfl, rfl⟩
  · exact processPage_success env st bookId page
  · intro h hu hload hne hdet hjs
    refine ⟨?_, rfl, rfl⟩
    unfold processPage
    rw [hu]
    dsimp only
    rw [hload]
    rw [hdet]
    simp only [ite_true]
    rw [extractSpa_js_failure env h page "transcript" hne hjs]

/-- Witness for claim C6: a cached SPA page whose JavaScript extraction
times out is returned as the static-fallback placeholder. -/
theorem c6_process_page_total_and_fallback_witness :
    loadPageContent spaCachedState "bs" 1 "transcript" = some "x data-pages= y" ∧
    (processPage c6Env spaCachedState "bs" 1).fst.transcriptInfo
      = some (staticFallbackInfo 1 "transcript") ∧
    (staticFallbackInfo 1 "transcript").extractionMethod = some "spa_static_fallback" :=
  ⟨by decide,
   ((c6_process_page_total_and_fallback c6Env spaCachedState "bs" 1).2.2.2
      "x data-pages= y" rfl (by decide) (by decide) (by decide)
      (fun lines hcontra => JsOutcome.noConfusion hcontra)).1,
   rfl⟩

/-- Claim C7: extract_book with skip_download on a book with no cached
content skips the download phase entirely and fails fast with a typed
extraction error carrying the phase name "processing phase" (wrapping the
fatal no-cached-content error), with an empty effect trace: no browsing
session, no navigation, no cache write. -/
theorem c7_skip_download_fails_fast (env : OrchestratorEnv) (st : CacheState)
    (ident : BookIdent) (startPage : Nat) (endPageOpt : Option Nat) (force : Bool)
    (hnc : isCached st ident.bookId = false) :
    extractBook env st ident startPage endPageOpt force true =
      (Except.error ⟨"processing phase",
        errStr ⟨"processing phase", "No cached content found for book " ++ ident.bookId⟩⟩,
       st, []) := by
  unfold extractBook processCachedBook
  simp [hnc]

/-- Witness for claim C7: skip-download extraction of an uncached book
fails with the processing-phase error and no effects. -/
theorem c7_skip_download_fails_fast_witness :
    isCached emptyCache c4Ident.bookId = false ∧
    extractBook c7Env emptyCache c4Ident 1 none false true =
      (Except.error ⟨"processing phase",
        errStr ⟨"processing phase", "No cached content found for book " ++ c4Ident.bookId⟩⟩,
       emptyCache, []) :=
  ⟨by decide, c7_skip_download_fails_fast c7Env emptyCache c4Ident 1 none false (by decide)⟩

/-- Claim C8: over a fixed cache, any two completion orders of the
worker pool - both permutations of the cached-pages list, which has no
duplicates - produce permutation-equal record multisets, and the final
pages list, sorted by page number, is identical; in particular pool
width 1 and any width N agree. -/
theorem c8_processing_order_irrelevant (env : ProcEnv) (st : CacheState)
    (bookId : String) (o1 o2 : List Nat) (mw1 mw2 : Nat)
    (hnd : (getCachedPages st bookId).Nodup)
    (h1 : List.Perm o1 (getCachedPages st bookId))
    (h2 : List.Perm o2 (getCachedPages st bookId)) :
    List.Perm (o1.map (fun p => (processPage env st bookId p).fst))
              (o2.map (fun p => (processPage env st bookId p).fst)) ∧
    pagesOf (processCachedBook env st bookId o1 mw1).fst =
      pagesOf (processCachedBook env st bookId o2 mw2).fst := by
  have hperm : List.Perm o1 o2 := h1.trans h2.symm
  refine ⟨hperm.map _, ?_⟩
  have hsorted : ∀ o : List Nat, List.Perm o (getCachedPages st bookId) →
      List.Pairwise (fun x y : PageRecord => x.pageNumber < y.pageNumber)
        (sortByKey (fun r : PageRecord => r.pageNumber)
          ((o.map (fun p => processPage env st bookId p)).map Prod.fst)) := by
    intro o ho
    refine pairwise_lt_of_le_nodup (fun r : PageRecord => r.pageNumber) _
      (sortByKey_pairwise (fun r : PageRecord => r.pageNumber) _) ?_
    have hkeys : (((o.map (fun p => processPage env st bookId p)).map Prod.fst).map
        (fun r : PageRecord => r.pageNumber)) = o := by
      rw [List.map_map, List.map_map]
      have : (fun p => ((Prod.fst ∘ fun p => processPage env st bookId p) p).pageNumber) =
          fun p : Nat => p := by
        funext p
        exact processPage_pageNumber env st bookId p
      show List.map ((fun r : PageRecord => r.pageNumber) ∘
          (Prod.fst ∘ fun p => processPage env st bookId p)) o = o
      calc List.map ((fun r : PageRecord => r.pageNumber) ∘
              (Prod.fst ∘ fun p => processPage env st bookId p)) o
          = List.map (fun p : Nat => p) o := by
            refine List.map_congr_left ?_
            intro p _
            exact processPage_pageNumber env st bookId p
        _ = o := List.map_id' o
    have hnodup : ((((o.map (fun p => processPage env st bookId p)).map Prod.fst).map
        (fun r : PageRecord => r.pageNumber))).Nodup := by
      rw [hkeys]
      exact List.Perm.nodup ho.symm hnd
    refine List.Perm.nodup ?_ hnodup
    exact (List.Perm.map (fun r : PageRecord => r.pageNumber)
      (sortByKey_perm (fun r : PageRecord => r.pageNumber) _)).symm
  unfold processCachedBook
  cases hcach : isCached st bookId with
  | false => simp [hcach]
  | true =>
      cases hemp : (getCachedPages st bookId).isEmpty with
      | true => simp [hcach, hemp]
      | false =>
          simp only [hcach, hemp, Bool.not_true, Bool.false_eq_true, ite_false]
          dsimp only [pagesOf]
          refine eq_of_perm_of_keyLt (fun r : PageRecord => r.pageNumber) _ _ ?_
            (hsorted o1 h1) (hsorted o2 h2)
          refine List.Perm.trans (sortByKey_perm _ _) ?_
          refine List.Perm.trans ?_ (sortByKey_perm _ _).symm
          exact (hperm.map _).map _

/-- Witness for claim C8: a one-page cached book processed in the only
completion order, with pool widths 1 and 4, gives identical sorted
results. -/
theorem c8_processing_order_irrelevant_witness :
    (getCachedPages spaCachedState "bs").Nodup ∧
    pagesOf (processCachedBook c8Env spaCachedState "bs" [1] 1).fst =
      pagesOf (processCachedBook c8Env spaCachedState "bs" [1] 4).fst :=
  ⟨by decide,
   (c8_processing_order_irrelevant c8Env spaCachedState "bs" [1] [1] 1 4
      (by decide) (by decide) (by decide)).2⟩

/-- Claim C9: every browser navigation performed by process_page targets
the hard-coded book URL of _execute_spa_extraction - the base
https://opendigi.ub.uni-tuebingen.de/opendigi/GaXXXIV5a with only the tab
kind and page-number fragment varying - so the URL is independent of the
book identifier passed into the extraction call, which never reaches the
URL construction. -/
theorem c9_spa_url_independent_of_book (env : ProcEnv) (st : CacheState)
    (bookId : String) (page : Nat) (e : Effect)
    (he : e ∈ (processPage env st bookId page).snd) :
    e = Effect.navUrl (spaPageUrl "transcript" page) ∨
    e = Effect.navUrl (spaPageUrl "view" page) := by
  unfold processPage at he
  cases hu : env.unexpected bookId page with
  | some err =>
      rw [hu] at he
      cases he
  | none =>
      rw [hu] at he
      dsimp only at he
      cases hd : detectSpa (orElseStr (loadPageContent st bookId page "transcript")
          (orElseStr (loadPageContent st bookId page "view") "")) with
      | false =>
          simp only [hd, Bool.false_eq_true, ite_false] at he
          cases he
      | true =>
          simp only [hd, ite_true] at he
          rcases List.mem_append.mp he with hm | hm
          · exact Or.inl (extractSpa_effects env _ page "transcript" e hm)
          · exact Or.inr (extractSpa_effects env _ page "view" e hm)

/-- Witness for claim C9: a successful JavaScript extraction of a cached
SPA page navigates, and the navigation URL is the hard-coded one. -/
theorem c9_spa_url_independent_of_book_witness :
    Effect.navUrl (spaPageUrl "transcript" 1) ∈ (processPage c9Env spaCachedState "bs" 1).snd ∧
    (Effect.navUrl (spaPageUrl "transcript" 1) = Effect.navUrl (spaPageUrl "transcript" 1) ∨
     Effect.navUrl (spaPageUrl "transcript" 1) = Effect.navUrl (spaPageUrl "view" 1)) :=
  ⟨by decide,
   c9_spa_url_independent_of_book c9Env spaCachedState "bs" 1 _ (by decide)⟩

/-- Witness for claim C10: two concrete saves (pages 2 then 1, mixed
tabs) on a fresh book yield pages_cached [1, 2] sorted without
duplicates and page_count 2. -/
theorem c10_metadata_sorted_nodup_maxcount_witness :
    List.Pairwise (fun a c => a < c)
      (metaOf (applySaves idHash "b" ([(2, "transcript", "x")] ++ [(1, "view", "y")]) emptyCache) "b").pagesCached ∧
    (metaOf (applySaves idHash "b" ([(2, "transcript", "x")] ++ [(1, "view", "y")]) emptyCache) "b").pagesCached.Nodup ∧
    (metaOf (applySaves idHash "b" ([(2, "transcript", "x")] ++ [(1, "view", "y")]) emptyCache) "b").pageCount =
      listMax ((([((2 : Nat), "transcript", "x")] ++ [((1 : Nat), "view", "y")]) :
        List (Nat × String × String)).map (fun s => s.1)) ∧
    (metaOf (applySaves idHash "b" [(2, "transcript", "x")] emptyCache) "b").pageCount ≤
      (metaOf (applySaves idHash "b" ([(2, "transcript", "x")] ++ [(1, "view", "y")]) emptyCache) "b").pageCount :=
  c10_metadata_sorted_nodup_maxcount idHash emptyCache "b"
    [(2, "transcript", "x")] (1, "view", "y") rfl

end GundertModel
